import Mathlib

/-!
Verification of the tool-loading and adaptation layer of the postgres-dba-agent
repository: `utils/load_tools_persistent.py` (ToolWrapper, loader, connection
lifecycle), `subagents/tools_registry.py` (registry, execute_tool, parameter
validation, composite analysis functions).

Python values are shallowly embedded as `PyObj`; keyword-argument dicts as
ordered association lists with Python dict update semantics; the remote Toolbox
callable is abstracted as a function parameter; exceptions as `Except String`.
-/

namespace PgAgent

/-- A Python runtime value, as far as this layer manipulates them.
`PyObj.none` is Python `None`. -/
inductive PyObj where
  | none : PyObj
  | bool : Bool → PyObj
  | int : Int → PyObj
  | str : String → PyObj
  | list : List PyObj → PyObj
  | dict : List (String × PyObj) → PyObj

/-- A Python keyword-argument dict (`**kwargs`): an ordered association list.
A value of `PyObj.none` is an explicitly supplied Python `None`. -/
abbrev Params := List (String × PyObj)

/-- Python dict assignment `d[k] = v`: overwrite in place if the key exists
(keeping its position), otherwise append. -/
def dictSet (d : List (String × α)) (k : String) (v : α) : List (String × α) :=
  if d.any (fun p => p.1 == k) then
    d.map (fun p => if p.1 == k then (k, v) else p)
  else d ++ [(k, v)]

/-- Python dict merge `{**a, **b}`: entries of `a` in order, overridden by `b`,
with keys only in `b` appended in their order. -/
def dictMerge (a b : List (String × α)) : List (String × α) :=
  b.foldl (fun acc p => dictSet acc p.1 p.2) a

/-- `o is None` in Python. -/
def pyIsNone : PyObj → Bool
  | .none => true
  | _ => false

/-- Python truthiness of a value (`if o:`). -/
def pyTruthy : PyObj → Bool
  | .none => false
  | .bool b => b
  | .int n => n != 0
  | .str s => s != ""
  | .list xs => !xs.isEmpty
  | .dict es => !es.isEmpty

/-- `{k: v for k, v in params.items() if v is not None}`. -/
def filterNone (d : Params) : Params :=
  d.filter (fun p => !pyIsNone p.2)

/-- `o == "s"` in Python, where the right-hand side is a string literal. -/
def pyIsStr (o : PyObj) (s : String) : Bool :=
  match o with
  | .str t => t == s
  | _ => false

/-- `d.get(k)` on a Python dict (missing key yields `None`); non-dicts yield
`None` here (the source only applies `.get` to dicts). -/
def dictGet (o : PyObj) (k : String) : PyObj :=
  match o with
  | .dict es => (es.lookup k).getD .none
  | _ => .none

/-- `k in d` on a Python dict. -/
def dictHasKey (o : PyObj) (k : String) : Bool :=
  match o with
  | .dict es => (es.lookup k).isSome
  | _ => false

/-- Whether `pat` is a prefix of `s` (over character lists). -/
def charsPrefix : List Char → List Char → Bool
  | [], _ => true
  | _ :: _, [] => false
  | c :: cs, d :: ds => c == d && charsPrefix cs ds

/-- Whether `pat` occurs as a contiguous sublist of `s`. -/
def charsContains (pat : List Char) : List Char → Bool
  | [] => pat.isEmpty
  | c :: tail => charsPrefix pat (c :: tail) || charsContains pat tail

/-- Python `pat in s` on strings: substring containment. -/
def strContains (s pat : String) : Bool :=
  charsContains pat.toList s.toList

/-- Python `s.lower()` (ASCII as used by the source's error messages). -/
def strLower (s : String) : List Char :=
  s.toList.map Char.toLower

/-- `TOOL_DEFAULTS` from `utils/load_tools_persistent.py`. -/
def TOOL_DEFAULTS : List (String × Params) :=
  [("get_most_frequent_queries", [("limit", .int 10)]),
   ("get_slowest_historical_queries", [("limit", .int 10)]),
   ("get_most_io_intensive_queries", [("limit", .int 10)]),
   ("get_unused_indexes", [("min_size_mb", .int 1)]),
   ("get_table_maintenance_stats", [("table_name", .none)]),
   ("get_user_role_memberships", [("username", .none)]),
   ("get_user_table_permissions", [("table_name", .none), ("username", .none)]),
   ("list_active_queries", [("min_duration_ms", .none), ("exclude_apps", .none)]),
   ("list_database_tables", [("schema_name", .none), ("table_name", .none)])]

/-- The "blocked" envelope dict returned by `ToolWrapper.__call__` for the two
username-gated tools (keys `error`, `message`, `workflow`, `status`). -/
structure BlockedEnvelope where
  error : String
  message : String
  workflow : String
  status : String
  deriving DecidableEq, Repr

/-- The envelope literal from `ToolWrapper.__call__` (load_tools_persistent.py
lines 133-138), with the f-string holes filled by the tool name. -/
def mkBlockedEnvelope (toolName : String) : BlockedEnvelope where
  error := "❌ MISSING REQUIRED PARAMETER: " ++ toolName ++
    " requires a \x27username\x27 parameter."
  message := "🔧 SOLUTION: First call \x27get_database_users_and_roles\x27 to get the list of users, then call this tool with a specific username from that list."
  workflow := "📋 CORRECT SEQUENCE:\n1. get_database_users_and_roles() - Get all users\n2. " ++
    toolName ++ "(username=\x27specific_user\x27) - Analyze specific user"
  status := "blocked"

/-- What the body of `ToolWrapper.__call__` does before/instead of reaching the
remote callable: return the blocked envelope, call `self.tool()` with no
arguments, or call `self.tool(**params)` with the final parameter dict. -/
inductive CallAction where
  | blocked : BlockedEnvelope → CallAction
  | invokeNoArgs : CallAction
  | invoke : Params → CallAction

/-- `f'"{username}"'`: wrap in literal double-quote characters. -/
def quoteStr (s : String) : String := "\"" ++ s ++ "\""

/-- The try-block of `ToolWrapper.__call__` (load_tools_persistent.py lines
117-150): merge caller kwargs over `TOOL_DEFAULTS`, drop `None` values, apply
the username gate and defensive quoting for the two username-gated tools, then
call with no arguments if the parameter set is empty, else with the merged set.
-/
def toolWrapperAction (toolName : String) (kwargs : Params) : CallAction :=
  let defaults := (TOOL_DEFAULTS.lookup toolName).getD []
  let params := filterNone (dictMerge defaults kwargs)
  if toolName = "get_user_table_permissions" ∨ toolName = "get_user_role_memberships" then
    match params.lookup "username" with
    | Option.none => .blocked (mkBlockedEnvelope toolName)
    | Option.some u =>
      if pyIsNone u then .blocked (mkBlockedEnvelope toolName)
      else
        let params :=
          match u with
          | .str s => if s ≠ "" then dictSet params "username" (.str (quoteStr s)) else params
          | _ => params
        if params.isEmpty then .invokeNoArgs else .invoke params
  else
    if params.isEmpty then .invokeNoArgs else .invoke params

/-- The condition of the except-branch of `ToolWrapper.__call__` (lines
155-158): `"Failed to parse the parameter" in str(e) or "parameter" in
str(e).lower()`. -/
def isParamShapeError (e : String) : Bool :=
  strContains e "Failed to parse the parameter" ||
    charsContains "parameter".toList (strLower e)

/-- The except-branch of `ToolWrapper.__call__` (lines 152-169): on a
parameter-shape error, retry the tool with no arguments, returning the retry's
result and re-raising the retry's failure; on any other error, re-raise. -/
def toolWrapperRecover (firstError : String) (retry : Except String ρ) :
    Except String ρ :=
  if isParamShapeError firstError then
    match retry with
    | .ok v => .ok v
    | .error e2 => .error e2
  else .error firstError

/-- The result of `ToolWrapper.__call__`: either the blocked envelope or
whatever the remote callable returned. -/
inductive CallResult (ρ : Type) where
  | blockedEnv : BlockedEnvelope → CallResult ρ
  | remoteVal : ρ → CallResult ρ

/-- `ToolWrapper.__call__` in full, with the remote callable abstracted as
`remote` (applied to `[]` for a no-argument call `self.tool()`); an
`Except.error` models a raised exception reaching the caller. -/
def toolWrapperRun (toolName : String) (kwargs : Params)
    (remote : Params → Except String ρ) : Except String (CallResult ρ) :=
  match toolWrapperAction toolName kwargs with
  | .blocked env => .ok (.blockedEnv env)
  | .invokeNoArgs =>
    match remote [] with
    | .ok v => .ok (.remoteVal v)
    | .error e => (toolWrapperRecover e (remote [])).map .remoteVal
  | .invoke ps =>
    match remote ps with
    | .ok v => .ok (.remoteVal v)
    | .error e => (toolWrapperRecover e (remote [])).map .remoteVal

/-- One entry of `TOOLS_REGISTRY` (subagents/tools_registry.py). An absent
`"defaults"` key in the Python dict is modelled as the empty list (no code
under test reads `defaults` from the registry). -/
structure ToolInfo where
  category : String
  description : String
  parameters : List String
  required_params : List String
  optional_params : List String
  defaults : Params := []

/-- `TOOLS_REGISTRY` from `subagents/tools_registry.py`, in source order. -/
def TOOLS_REGISTRY : List (String × ToolInfo) :=
  [("list_database_tables",
    { category := "schema",
      description := "List all database tables with schema information",
      parameters := [], required_params := [],
      optional_params := ["schema_name", "table_name"] }),
   ("find_invalid_indexes",
    { category := "schema",
      description := "Find invalid or broken indexes in the database",
      parameters := [], required_params := [], optional_params := [] }),
   ("get_unused_indexes",
    { category := "schema",
      description := "Identify indexes that are not being used",
      parameters := ["min_size_mb"], required_params := [],
      optional_params := ["min_size_mb"],
      defaults := [("min_size_mb", .int 1)] }),
   ("get_table_maintenance_stats",
    { category := "schema",
      description := "Get maintenance statistics for database tables",
      parameters := ["table_name"], required_params := [],
      optional_params := ["table_name"] }),
   ("get_database_users_and_roles",
    { category := "security",
      description := "List all database users and their roles",
      parameters := [], required_params := [], optional_params := [] }),
   ("get_user_table_permissions",
    { category := "security",
      description := "Get table permissions for a specific user",
      parameters := ["table_name", "username"],
      required_params := ["username"],
      optional_params := ["table_name"] }),
   ("get_user_role_memberships",
    { category := "security",
      description := "Get role memberships for a specific user",
      parameters := ["username"], required_params := ["username"],
      optional_params := [] }),
   ("get_current_connections_summary",
    { category := "security",
      description := "Get summary of current database connections",
      parameters := [], required_params := [], optional_params := [] }),
   ("list_active_queries",
    { category := "performance",
      description := "List currently active queries in the database",
      parameters := [], required_params := [],
      optional_params := ["min_duration_ms", "exclude_apps"] }),
   ("get_slowest_historical_queries",
    { category := "performance",
      description := "Get the slowest queries from query history",
      parameters := ["limit"], required_params := [],
      optional_params := ["limit"], defaults := [("limit", .int 10)] }),
   ("get_most_io_intensive_queries",
    { category := "performance",
      description := "Get the most I/O intensive queries",
      parameters := ["limit"], required_params := [],
      optional_params := ["limit"], defaults := [("limit", .int 10)] }),
   ("get_most_frequent_queries",
    { category := "performance",
      description := "Get the most frequently executed queries",
      parameters := ["limit"], required_params := [],
      optional_params := ["limit"], defaults := [("limit", .int 10)] }),
   ("get_blocking_sessions",
    { category := "performance",
      description := "Find sessions that are blocking other queries",
      parameters := [], required_params := [], optional_params := [] }),
   ("get_long_running_transactions",
    { category := "performance",
      description := "Find long-running transactions",
      parameters := [], required_params := [], optional_params := [] }),
   ("get_cache_hit_ratios",
    { category := "performance",
      description := "Get database cache hit ratios",
      parameters := [], required_params := [], optional_params := [] }),
   ("get_database_sizes",
    { category := "system",
      description := "Get sizes of all databases",
      parameters := [], required_params := [], optional_params := [] }),
   ("get_table_sizes_summary",
    { category := "system",
      description := "Get comprehensive table sizes with row counts and types",
      parameters := ["schema_name", "limit"], required_params := [],
      optional_params := ["schema_name", "limit"],
      defaults := [("schema_name", .str "public"), ("limit", .int 50)] }),
   ("list_all_schemas",
    { category := "system",
      description := "List all schemas in the database with their properties",
      parameters := [], required_params := [], optional_params := [] }),
   ("get_memory_configuration",
    { category := "system",
      description := "Get PostgreSQL memory configuration",
      parameters := [], required_params := [], optional_params := [] }),
   ("get_postgresql_version_info",
    { category := "system",
      description := "Get PostgreSQL version and build information",
      parameters := [], required_params := [], optional_params := [] }),
   ("get_replication_status",
    { category := "system",
      description := "Get PostgreSQL replication status",
      parameters := [], required_params := [], optional_params := [] }),
   ("list_installed_extensions",
    { category := "system",
      description := "List all installed PostgreSQL extensions",
      parameters := [], required_params := [], optional_params := [] }),
   ("list_available_extensions",
    { category := "system",
      description := "List all available PostgreSQL extensions",
      parameters := [], required_params := [], optional_params := [] })]

/-- Python repr of a list of strings, `['a', 'b']`, as interpolated into
error messages by f-strings. -/
def pyStrListRepr (xs : List String) : String :=
  "[" ++ String.intercalate ", " (xs.map (fun s => "\x27" ++ s ++ "\x27")) ++ "]"

/-- `list(TOOLS_REGISTRY.keys())` as a Python repr string. -/
def availableToolsRepr : String :=
  pyStrListRepr (TOOLS_REGISTRY.map Prod.fst)

/-- Observable outcome of `execute_tool` for the claims under study:
`failedNotFound` is the envelope `{"error": msg, "status": "failed"}` produced
by the registry check before the loader is consulted; `viaAdapter a` records
that the tool was loaded (wrapped per `ToolWrapper`) and the adapter performed
action `a`. The remote resolution itself and the success-envelope
normalization of the remote return value are abstracted away. -/
inductive ExecResult where
  | failedNotFound : String → ExecResult
  | viaAdapter : CallAction → ExecResult

/-- `execute_tool` (tools_registry.py lines 196-242) up to the adapter's call
action: an unknown name returns the not-found failure envelope without loading
anything; a known name is loaded via `load_single_tool` (which wraps it in
`ToolWrapper` with `TOOL_DEFAULTS`) and invoked with the caller's kwargs
(`tool(**kwargs)` if kwargs is non-empty, `tool()` otherwise — both equal
`toolWrapperAction toolName kwargs` since `tool()` is a call with empty
kwargs). -/
def execute_tool (toolName : String) (kwargs : Params) : ExecResult :=
  if (TOOLS_REGISTRY.lookup toolName).isNone then
    .failedNotFound ("Tool \x27" ++ toolName ++ "\x27 not found. Available tools: " ++
      availableToolsRepr)
  else
    .viaAdapter (toolWrapperAction toolName kwargs)

/-- The `missing_params` list of `validate_tool_parameters` (lines 325-329):
required parameters absent from the kwargs or supplied as `None`. -/
def missingRequired (info : ToolInfo) (kwargs : Params) : List String :=
  info.required_params.filter (fun p =>
    match kwargs.lookup p with
    | Option.some v => pyIsNone v
    | Option.none => true)

/-- The `unknown_params` list of `validate_tool_parameters` (line 339):
supplied names not in the registry entry's `parameters` list. -/
def unknownParams (info : ToolInfo) (kwargs : Params) : List String :=
  (kwargs.map Prod.fst).filter (fun k => !info.parameters.contains k)

/-- `validate_tool_parameters` (tools_registry.py lines 302-347), returning
the Python result dict verbatim. -/
def validate_tool_parameters (toolName : String) (kwargs : Params) : PyObj :=
  match TOOLS_REGISTRY.lookup toolName with
  | Option.none =>
    .dict [("valid", .bool false),
           ("error", .str ("Tool \x27" ++ toolName ++ "\x27 not found")),
           ("available_tools", .list (TOOLS_REGISTRY.map (fun p => PyObj.str p.1)))]
  | Option.some info =>
    let missing := missingRequired info kwargs
    if missing ≠ [] then
      .dict [("valid", .bool false),
             ("error", .str ("Missing required parameters: " ++ pyStrListRepr missing)),
             ("required_params", .list (info.required_params.map .str)),
             ("provided_params", .list (kwargs.map (fun p => PyObj.str p.1)))]
    else
      let unknown := unknownParams info kwargs
      if unknown ≠ [] then
        .dict [("valid", .bool false),
               ("warning", .str ("Unknown parameters will be ignored: " ++ pyStrListRepr unknown)),
               ("valid_params", .list (info.parameters.map .str))]
      else
        .dict [("valid", .bool true), ("message", .str "All parameters are valid")]

/-- The shared `ToolboxSyncClient` handle. `closeError = some e` means its
`close()` raises an exception with message `e` when called. -/
structure TbClient where
  url : String
  closeError : Option String
  deriving DecidableEq, Repr

/-- `cleanup_toolbox_client` (load_tools_persistent.py lines 344-353) acting on
the module-global `_toolbox_client`: returns the new handle state and the
warning log emitted, if any. The function is total — a close failure is caught
and logged, and the `finally` block always nulls the handle — so no exception
outcome exists in its type. -/
def cleanup_toolbox_client (st : Option TbClient) : Option TbClient × Option String :=
  match st with
  | Option.none => (Option.none, Option.none)
  | Option.some c =>
    (Option.none, c.closeError.map (fun e => "Error closing toolbox client: " ++ e))

/-- `get_toolbox_client` (lines 172-177): reuse the stored handle if present,
else create one via the `ToolboxSyncClient` constructor `mk` and store it.
Returns the new state and the client handed to the caller. -/
def get_toolbox_client (mk : String → TbClient) (toolboxUrl : String)
    (st : Option TbClient) : Option TbClient × TbClient :=
  match st with
  | Option.none => (Option.some (mk toolboxUrl), mk toolboxUrl)
  | Option.some c => (Option.some c, c)

/-- A constructed `ToolWrapper` object. `wrapperId` models Python object
identity: `ToolWrapper(raw_tool, tool_name)` allocates a fresh object on every
evaluation, so each construction gets a distinct id. -/
structure Wrapper where
  wrapperId : Nat
  tool_name : String
  defaults : Params

/-- Loader-visible module state: the global `_toolbox_client` plus the count of
`ToolWrapper` objects constructed so far (the next fresh id). -/
structure LoaderState where
  toolboxClient : Option TbClient
  wrappersConstructed : Nat

/-- `ToolWrapper.__init__`: record the tool name and `TOOL_DEFAULTS` entry and
allocate a fresh object. -/
def mkToolWrapper (st : LoaderState) (toolName : String) : LoaderState × Wrapper :=
  ({ st with wrappersConstructed := st.wrappersConstructed + 1 },
   { wrapperId := st.wrappersConstructed, tool_name := toolName,
     defaults := (TOOL_DEFAULTS.lookup toolName).getD [] })

/-- `load_single_tool` (load_tools_persistent.py lines 180-209): create the
shared client if absent, resolve the raw tool (`loadTool client name`, `none`
modelling a raised load error, which propagates), and wrap it in a brand-new
`ToolWrapper`. There is no per-identifier cache of wrappers. -/
def load_single_tool (loadTool : TbClient → String → Option String)
    (toolboxUrl : String) (toolName : String) (st : LoaderState) :
    LoaderState × Except String Wrapper :=
  let client := st.toolboxClient.getD { url := toolboxUrl, closeError := Option.none }
  let st := { st with toolboxClient := Option.some client }
  match loadTool client toolName with
  | Option.none => (st, .error ("Error loading single tool " ++ toolName))
  | Option.some _raw =>
    let (st, w) := mkToolWrapper st toolName
    (st, .ok w)

/-- The `toolsets` table inside `load_tools_persistent` (lines 229-291), in
source order. -/
def toolsets : List (String × List String) :=
  [("postgres-dba-emergency",
    ["list_active_queries", "get_blocking_sessions",
     "get_long_running_transactions", "get_current_connections_summary"]),
   ("postgres-dba-performance",
    ["list_active_queries", "get_slowest_historical_queries",
     "get_most_io_intensive_queries", "get_most_frequent_queries",
     "get_blocking_sessions", "get_long_running_transactions",
     "get_cache_hit_ratios"]),
   ("postgres-dba-schema",
    ["list_database_tables", "find_invalid_indexes", "get_unused_indexes",
     "get_table_maintenance_stats"]),
   ("postgres-dba-security",
    ["get_database_users_and_roles", "get_user_table_permissions",
     "get_current_connections_summary", "get_user_role_memberships",
     "list_database_tables", "get_postgresql_version_info",
     "list_installed_extensions"]),
   ("postgres-dba-maintenance",
    ["get_database_sizes", "get_memory_configuration",
     "get_postgresql_version_info", "get_replication_status",
     "list_installed_extensions", "list_available_extensions"]),
   ("postgres-dba-complete",
    ["list_active_queries", "list_database_tables",
     "list_installed_extensions", "list_available_extensions",
     "get_slowest_historical_queries", "get_most_io_intensive_queries",
     "get_most_frequent_queries", "get_blocking_sessions",
     "get_long_running_transactions", "find_invalid_indexes",
     "get_unused_indexes", "get_database_users_and_roles",
     "get_user_table_permissions", "get_current_connections_summary",
     "get_user_role_memberships", "get_database_sizes",
     "get_table_maintenance_stats", "get_memory_configuration",
     "get_postgresql_version_info", "get_replication_status",
     "get_cache_hit_ratios"])]

/-- What `load_tools_persistent` records about one successfully wrapped tool:
the raw tool's `__name__` and the `ToolWrapper` defaults attached to it.
(Object identity plays no role in the bundle claims, so no id is threaded.) -/
structure AdapterSpec where
  tool_name : String
  defaults : Params

/-- `ToolWrapper(tool, getattr(tool, "__name__", str(tool)))` as performed in
the bundle loop, with the raw tool modelled by its name. -/
def wrapTool (raw : String) : AdapterSpec :=
  { tool_name := raw, defaults := (TOOL_DEFAULTS.lookup raw).getD [] }

/-- `load_tools_persistent` (load_tools_persistent.py lines 212-338):
resolve the bundle name (unknown names fall back to the
`postgres-dba-complete` list), attempt each identifier in order — a failed
load (`loadTool t = none`) is logged and skipped, never raised — return `[]`
if nothing resolved, else the wrapped adapters in bundle order minus skips. -/
def load_tools_persistent (loadTool : String → Option String)
    (toolsetName : String) : List AdapterSpec :=
  let toolNames := (toolsets.lookup toolsetName).getD
    ((toolsets.lookup "postgres-dba-complete").getD [])
  let rawTools := toolNames.filterMap loadTool
  if rawTools.isEmpty then []
  else rawTools.map wrapTool

/-- Python truthiness of an `Optional[str]` (`if s:`). -/
def optStrTruthy : Option String → Bool
  | Option.none => false
  | Option.some s => s != ""

/-- Python truthiness of an `Optional[int]` (`if n:`). -/
def optIntTruthy : Option Int → Bool
  | Option.none => false
  | Option.some n => n != 0

/-- Python `n or d` for an `Optional[int]` `n`. -/
def intOr : Option Int → Int → Int
  | Option.some n, d => if n != 0 then n else d
  | Option.none, d => d

/-- An `Optional[int]` passed as a keyword argument (None stays None). -/
def optIntObj : Option Int → PyObj
  | Option.some n => .int n
  | Option.none => .none

/-- The key a `PyObj` contributes when used as a Python dict key; in the
analysed code this is always a table-name string. -/
def pyKeyOf : PyObj → String
  | .str s => s
  | _ => ""

/-- The missing-`limit` failure envelope of `execute_performance_analysis`
(tools_registry.py lines 411-416). -/
def missingLimitEnvelope : PyObj :=
  .dict [("error", .str "Parameter \x27limit\x27 is required for query analysis tools. Please specify how many queries to analyze."),
         ("status", .str "failed"),
         ("required_parameter", .str "limit"),
         ("suggestion", .str "Example: limit=10 for top 10 queries")]

/-- The shared suggestion text of the three missing-`schema_name` envelopes. -/
def schemaNameSuggestion : String :=
  "Example: schema_name=\x27public\x27 or schema_name=\x27ecommerce_schema\x27"

/-- Missing-`schema_name` envelope of the table-analysis branch of
`execute_schema_analysis` (lines 478-483). -/
def missingSchemaTablesEnvelope : PyObj :=
  .dict [("error", .str "Parameter \x27schema_name\x27 is required for table analysis. Please specify which schema to analyze."),
         ("status", .str "failed"),
         ("required_parameter", .str "schema_name"),
         ("suggestion", .str schemaNameSuggestion)]

/-- Missing-`schema_name` envelope of the maintenance branch of
`execute_schema_analysis` (lines 508-513). -/
def missingSchemaMaintAnalysisEnvelope : PyObj :=
  .dict [("error", .str "Parameter \x27schema_name\x27 is required for maintenance analysis. Please specify which schema to analyze."),
         ("status", .str "failed"),
         ("required_parameter", .str "schema_name"),
         ("suggestion", .str schemaNameSuggestion)]

/-- Missing-`schema_name` envelope of `execute_maintenance_analysis`
(lines 620-625). -/
def missingSchemaStatsEnvelope : PyObj :=
  .dict [("error", .str "Parameter \x27schema_name\x27 is required for maintenance stats analysis. Please specify which schema to analyze."),
         ("status", .str "failed"),
         ("required_parameter", .str "schema_name"),
         ("suggestion", .str schemaNameSuggestion)]

/-- The params dict built for `list_active_queries` in
`execute_performance_analysis` (lines 399-405): `min_duration` then `limit`,
each included only when truthy; `[]` corresponds to the no-argument call of
the else-branch. -/
def activeQueryParams (minDuration : Option String) (limitActive : Option Int) : Params :=
  (if optStrTruthy minDuration then [("min_duration", PyObj.str (minDuration.getD ""))] else []) ++
    (if optIntTruthy limitActive then [("limit", PyObj.int (limitActive.getD 0))] else [])

/-- The blocking/cache/memory sections and final envelope of
`execute_performance_analysis` (lines 428-449), continuing an accumulated
sub-call trace and results dict. `ex` abstracts `execute_tool`. -/
def performanceAnalysisRest (ex : String → Params → PyObj) (analysisType : String)
    (trace : List (String × Params)) (results : List (String × PyObj)) :
    List (String × Params) × PyObj :=
  let (trace, results) :=
    if analysisType = "comprehensive" ∨ analysisType = "blocking" then
      (trace ++ [("get_blocking_sessions", []), ("get_long_running_transactions", [])],
       results ++ [("blocking_sessions", ex "get_blocking_sessions" []),
                   ("long_running_transactions", ex "get_long_running_transactions" [])])
    else (trace, results)
  let (trace, results) :=
    if analysisType = "comprehensive" ∨ analysisType = "cache" then
      (trace ++ [("get_cache_hit_ratios", [])],
       results ++ [("cache_hit_ratios", ex "get_cache_hit_ratios" [])])
    else (trace, results)
  let (trace, results) :=
    if analysisType = "comprehensive" ∨ analysisType = "memory" then
      (trace ++ [("get_memory_configuration", [])],
       results ++ [("memory_configuration", ex "get_memory_configuration" [])])
    else (trace, results)
  (trace, PyObj.dict [("analysis_type", .str analysisType), ("status", .str "success"),
                      ("results", .dict results)])

/-- `execute_performance_analysis` (tools_registry.py lines 379-454), with
`execute_tool` abstracted as `ex`. Returns the ordered trace of sub-tool
`execute_tool` calls made and the returned envelope. The missing-`limit`
check (line 410) sits after the `list_active_queries` call (lines 399-407). -/
def execute_performance_analysis (ex : String → Params → PyObj) (analysisType : String)
    (limit : Option Int) (minDuration : Option String) (limitActive : Option Int) :
    List (String × Params) × PyObj :=
  if analysisType = "comprehensive" ∨ analysisType = "queries" then
    let ap := activeQueryParams minDuration limitActive
    let trace := [("list_active_queries", ap)]
    let results := [("active_queries", ex "list_active_queries" ap)]
    match limit with
    | Option.none => (trace, missingLimitEnvelope)
    | Option.some lim =>
      let lp : Params := [("limit", .int lim)]
      let trace := trace ++ [("get_slowest_historical_queries", lp),
        ("get_most_io_intensive_queries", lp), ("get_most_frequent_queries", lp)]
      let results := results ++
        [("slowest_queries", ex "get_slowest_historical_queries" lp),
         ("io_intensive_queries", ex "get_most_io_intensive_queries" lp),
         ("frequent_queries", ex "get_most_frequent_queries" lp)]
      performanceAnalysisRest ex analysisType trace results
  else performanceAnalysisRest ex analysisType [] []

/-- The per-table loop shared by the maintenance branches (e.g.
tools_registry.py lines 637-644): for each dict entry with a truthy
`table_name`, call `get_table_maintenance_stats` and store the result under
that table name. Returns the sub-call trace and the `maintenance_stats`
dict. -/
def tableStatsLoop (ex : String → Params → PyObj) (schemaName : String)
    (tables : List PyObj) : List (String × Params) × List (String × PyObj) :=
  tables.foldl (fun acc table =>
    match table with
    | .dict es =>
      let tn := (es.lookup "table_name").getD .none
      if pyTruthy tn then
        let p : Params := [("schema_name", .str schemaName), ("table_name", tn)]
        (acc.1 ++ [("get_table_maintenance_stats", p)],
         dictSet acc.2 (pyKeyOf tn) (ex "get_table_maintenance_stats" p))
      else acc
    | _ => acc) ([], [])

/-- The sizes and extensions sections and final envelope of
`execute_maintenance_analysis` (lines 650-663). -/
def maintenanceAnalysisRest (ex : String → Params → PyObj) (analysisType : String)
    (schemaName : Option String) (limit : Option Int)
    (trace : List (String × Params)) (results : List (String × PyObj)) :
    List (String × Params) × PyObj :=
  let (trace, results) :=
    if analysisType = "comprehensive" ∨ analysisType = "sizes" then
      let trace := trace ++ [("get_database_sizes", [])]
      let results := results ++ [("database_sizes", ex "get_database_sizes" [])]
      if optStrTruthy schemaName then
        let p : Params := [("schema_name", .str (schemaName.getD "")),
                           ("limit", optIntObj limit)]
        (trace ++ [("get_table_sizes_summary", p)],
         results ++ [("schema_table_sizes", ex "get_table_sizes_summary" p)])
      else (trace, results)
    else (trace, results)
  let (trace, results) :=
    if analysisType = "comprehensive" ∨ analysisType = "extensions" then
      (trace ++ [("list_installed_extensions", []), ("list_available_extensions", [])],
       results ++ [("installed_extensions", ex "list_installed_extensions" []),
                   ("available_extensions", ex "list_available_extensions" [])])
    else (trace, results)
  (trace, PyObj.dict [("analysis_type", .str analysisType), ("status", .str "success"),
                      ("results", .dict results)])

/-- `execute_maintenance_analysis` (tools_registry.py lines 600-668), with
`execute_tool` abstracted as `ex`. The missing-`schema_name` check of the
stats branch (line 619) runs before any sub-call. -/
def execute_maintenance_analysis (ex : String → Params → PyObj) (analysisType : String)
    (schemaName : Option String) (limit : Option Int) :
    List (String × Params) × PyObj :=
  if (analysisType = "comprehensive" ∨ analysisType = "stats") ∧ schemaName = Option.none then
    ([], missingSchemaStatsEnvelope)
  else
    let (trace, results) :=
      if analysisType = "comprehensive" ∨ analysisType = "stats" then
        let sn := schemaName.getD ""
        let p1 : Params := [("schema_name", .str sn), ("limit", .int (intOr limit 20))]
        let tsr := ex "get_table_sizes_summary" p1
        let trace := [("get_table_sizes_summary", p1)]
        let results := [("table_sizes", tsr)]
        if pyIsStr (dictGet tsr "status") "success" && dictHasKey tsr "result" then
          match dictGet tsr "result" with
          | .list ts =>
            let (t2, ms) := tableStatsLoop ex sn ts
            (trace ++ t2, results ++ [("maintenance_stats", PyObj.dict ms)])
          | _ => (trace, results ++ [("maintenance_stats", PyObj.dict [])])
        else (trace, results)
      else ([], [])
    maintenanceAnalysisRest ex analysisType schemaName limit trace results

/-- `execute_schema_analysis` (tools_registry.py lines 457-540), with
`execute_tool` abstracted as `ex`. The missing-`schema_name` check of the
tables branch (line 477) runs before any sub-call; the maintenance branch has
its own check (line 507) mid-function. -/
def execute_schema_analysis (ex : String → Params → PyObj) (analysisType : String)
    (schemaName : Option String) (limit : Option Int) (minSizeMb : Option Int) :
    List (String × Params) × PyObj :=
  if (analysisType = "comprehensive" ∨ analysisType = "tables") ∧ schemaName = Option.none then
    ([], missingSchemaTablesEnvelope)
  else
    let (trace, results) :=
      if analysisType = "comprehensive" ∨ analysisType = "tables" then
        let sn := schemaName.getD ""
        let p : Params := [("schema_name", .str sn)] ++
          (if optIntTruthy limit then [("limit", PyObj.int (limit.getD 0))] else [])
        ([("get_table_sizes_summary", p), ("list_database_tables", [])],
         [("table_sizes", ex "get_table_sizes_summary" p),
          ("tables", ex "list_database_tables" [])])
      else ([], [])
    let (trace, results) :=
      if analysisType = "comprehensive" ∨ analysisType = "indexes" then
        let p : Params :=
          if optIntTruthy minSizeMb then [("min_size_mb", PyObj.int (minSizeMb.getD 0))] else []
        (trace ++ [("find_invalid_indexes", []), ("get_unused_indexes", p)],
         results ++ [("invalid_indexes", ex "find_invalid_indexes" []),
                     ("unused_indexes", ex "get_unused_indexes" p)])
      else (trace, results)
    if analysisType = "comprehensive" ∨ analysisType = "maintenance" then
      match schemaName with
      | Option.none => (trace, missingSchemaMaintAnalysisEnvelope)
      | Option.some sn =>
        let p1 : Params := [("schema_name", .str sn), ("limit", .int 100)]
        let tsr := ex "get_table_sizes_summary" p1
        let trace := trace ++ [("get_table_sizes_summary", p1)]
        let (trace, results) :=
          if pyIsStr (dictGet tsr "status") "success" && dictHasKey tsr "result" then
            match dictGet tsr "result" with
            | .list ts =>
              let (t2, ms) := tableStatsLoop ex sn (ts.take (intOr limit 10).toNat)
              (trace ++ t2, results ++ [("maintenance_stats", PyObj.dict ms)])
            | _ => (trace, results ++ [("maintenance_stats", PyObj.dict [])])
          else (trace, results)
        (trace, PyObj.dict [("analysis_type", .str analysisType),
                            ("status", .str "success"), ("results", .dict results)])
    else
      (trace, PyObj.dict [("analysis_type", .str analysisType),
                          ("status", .str "success"), ("results", .dict results)])

/-- A fake remote callable that always raises a missing-required-argument
style error (its message is the Toolbox parameter-parse failure text). -/
def remoteAlwaysParamError : Params → Except String Int :=
  fun _ => .error "Failed to parse the parameter min_size_mb"

/-- A fake remote callable that raises a parameter-parse failure when called
with arguments and succeeds (returning 7) when called with none. -/
def remoteRecovers : Params → Except String Int :=
  fun ps => if ps.isEmpty then .ok 7 else .error "Failed to parse the parameter limit"

/-- A fake raw-tool resolver for the loader that resolves every identifier. -/
def loadAlwaysOk : TbClient → String → Option String :=
  fun _ t => Option.some t

/-- A fake bundle resolver that fails on exactly one identifier
(`find_invalid_indexes`) and resolves every other one. -/
def loadSkipInvalid : String → Option String :=
  fun t => if t = "find_invalid_indexes" then Option.none else Option.some t

/-- A fake `execute_tool` oracle for the composite analysis functions that
always returns a minimal success envelope. -/
def exStatusSuccess : String → Params → PyObj :=
  fun _ _ => .dict [("status", .str "success")]

/-- Association-list lookup misses every key that is not in the key list. -/
lemma lookup_eq_none_of_not_mem {β : Type} (l : List (String × β)) (k : String)
    (h : k ∉ l.map Prod.fst) : l.lookup k = Option.none := by
  induction l with
  | nil => rfl
  | cons p t ih =>
    simp only [List.map_cons, List.mem_cons, not_or] at h
    have hb : (k == p.1) = false := beq_eq_false_iff_ne.mpr h.1
    simp only [List.lookup, hb]
    exact ih h.2

set_option maxRecDepth 40000

/-- C1 counterexample: calling the username-gated `get_user_role_memberships`
adapter with the empty-string username does NOT return the blocked envelope —
the empty string survives the None-filter, fails the truthiness test that
guards quoting, and is passed to the remote callable unquoted. -/
theorem c1_empty_username_not_blocked :
    toolWrapperAction "get_user_role_memberships" [("username", .str "")] =
      .invoke [("username", .str "")] := by
  rfl

/-- C1 (amended): for the two username-gated tools, a missing or null username
short-circuits to the blocked envelope (whose status is "blocked", whose error
names `username`, and whose remediation recommends
`get_database_users_and_roles`) without reaching the remote callable, and any
non-empty string username is passed to the remote callable wrapped in literal
double-quote characters; an empty-string username, however, is passed through
unquoted rather than blocked. -/
theorem c1_username_gate_amended (s t : String) (hs : s ≠ "") :
    toolWrapperAction "get_user_role_memberships" [] =
        .blocked (mkBlockedEnvelope "get_user_role_memberships") ∧
    toolWrapperAction "get_user_role_memberships" [("username", PyObj.none)] =
        .blocked (mkBlockedEnvelope "get_user_role_memberships") ∧
    toolWrapperAction "get_user_table_permissions" [("username", PyObj.none)] =
        .blocked (mkBlockedEnvelope "get_user_table_permissions") ∧
    toolWrapperAction "get_user_role_memberships" [("username", .str s)] =
        .invoke [("username", .str (quoteStr s))] ∧
    toolWrapperAction "get_user_table_permissions"
        [("username", .str s), ("table_name", .str t)] =
        .invoke [("table_name", .str t), ("username", .str (quoteStr s))] ∧
    (mkBlockedEnvelope "get_user_role_memberships").status = "blocked" ∧
    strContains (mkBlockedEnvelope "get_user_role_memberships").error "username" = true ∧
    strContains (mkBlockedEnvelope "get_user_role_memberships").message
      "get_database_users_and_roles" = true := by
  refine ⟨rfl, rfl, rfl, ?_, ?_, rfl, rfl, rfl⟩
  · simp [toolWrapperAction, TOOL_DEFAULTS, dictMerge, dictSet, filterNone, pyIsNone,
      List.lookup, hs]
  · simp [toolWrapperAction, TOOL_DEFAULTS, dictMerge, dictSet, filterNone, pyIsNone,
      List.lookup, hs]

/-- C1 witness: the amended theorem evaluated at the non-empty username
"app_user" (and table "orders"). -/
theorem c1_username_gate_amended_witness :
    toolWrapperAction "get_user_role_memberships" [("username", .str "app_user")] =
        .invoke [("username", .str "\"app_user\"")] ∧
    toolWrapperAction "get_user_table_permissions"
        [("username", .str "app_user"), ("table_name", .str "orders")] =
        .invoke [("table_name", .str "orders"), ("username", .str "\"app_user\"")] := by
  have h := c1_username_gate_amended "app_user" "orders" (by decide)
  exact ⟨h.2.2.2.1, h.2.2.2.2.1⟩

/-- C2 counterexample: when the remote callable fails with a
missing-required-argument (parameter-shape) error, the adapter does NOT
return a failure envelope naming the parameter — here the no-argument retry
fails with the same parameter-shape error and the adapter re-raises it, so a
raw exception propagates to the caller. -/
theorem c2_param_error_propagates_exception :
    toolWrapperRun "get_unused_indexes" [] remoteAlwaysParamError =
      .error "Failed to parse the parameter min_size_mb" := by
  rfl

/-- C2 (amended): when the remote callable invoked by `ToolWrapper.__call__`
fails with a parameter-shape error (message contains "Failed to parse the
parameter", or "parameter" case-insensitively), the adapter does not build any
envelope: it retries the callable with no arguments, returning the retry's
result if it succeeds and re-raising the retry's failure otherwise; every
failure that is not a parameter-shape error is logged and re-raised. -/
theorem c2_error_path_amended {ρ : Type} (remote : Params → Except String ρ)
    (toolName : String) (kwargs : Params) (ps : Params) (e : String)
    (hact : toolWrapperAction toolName kwargs = .invoke ps)
    (herr : remote ps = .error e) :
    (isParamShapeError e = true →
      toolWrapperRun toolName kwargs remote = (remote []).map CallResult.remoteVal) ∧
    (isParamShapeError e = false →
      toolWrapperRun toolName kwargs remote = .error e) := by
  constructor
  · intro hp
    simp only [toolWrapperRun, hact, herr, toolWrapperRecover, hp, if_true]
    cases remote [] <;> rfl
  · intro hn
    simp only [toolWrapperRun, hact, herr, toolWrapperRecover, hn]
    rfl

/-- C2 witness: a remote callable that fails on the parameter-bearing call
with a parameter-shape error and succeeds on the no-argument retry — the
adapter returns the retry's raw result, not an envelope. -/
theorem c2_error_path_amended_witness :
    toolWrapperRun "get_slowest_historical_queries" [] remoteRecovers =
      .ok (.remoteVal 7) := by
  have h := (c2_error_path_amended remoteRecovers "get_slowest_historical_queries"
    [] [("limit", .int 10)] "Failed to parse the parameter limit" rfl rfl).1 rfl
  exact h.trans rfl

/-- C3: for every tool name absent from the registry, `execute_tool` returns
the status-"failed" envelope whose error message names the tool and lists all
known tool identifiers, raising nothing and never consulting the loader (the
`failedNotFound` branch is taken before `load_single_tool`). -/
theorem c3_unknown_tool_not_found (toolName : String) (kwargs : Params)
    (h : TOOLS_REGISTRY.lookup toolName = Option.none) :
    execute_tool toolName kwargs =
      .failedNotFound ("Tool \x27" ++ toolName ++ "\x27 not found. Available tools: " ++
        availableToolsRepr) ∧
    ∀ t ∈ TOOLS_REGISTRY.map Prod.fst, strContains availableToolsRepr t = true := by
  refine ⟨by simp [execute_tool, h], by decide⟩

/-- C3 witness: the theorem evaluated at the unknown name "drop_database". -/
theorem c3_unknown_tool_not_found_witness :
    execute_tool "drop_database" [] =
      .failedNotFound ("Tool \x27drop_database\x27 not found. Available tools: " ++
        availableToolsRepr) := by
  exact (c3_unknown_tool_not_found "drop_database" [] rfl).1

/-- C4 counterexample: loading the same identifier twice through the Loader
constructs two distinct `ToolWrapper` objects (object ids 0 and 1) — there is
no per-identifier adapter cache; only the client handle is reused. -/
theorem c4_two_loads_two_wrappers :
    load_single_tool loadAlwaysOk "http://toolbox" "get_unused_indexes"
        { toolboxClient := Option.none, wrappersConstructed := 0 } =
      ({ toolboxClient := Option.some { url := "http://toolbox", closeError := Option.none },
         wrappersConstructed := 1 },
       .ok { wrapperId := 0, tool_name := "get_unused_indexes",
             defaults := [("min_size_mb", .int 1)] }) ∧
    load_single_tool loadAlwaysOk "http://toolbox" "get_unused_indexes"
        { toolboxClient := Option.some { url := "http://toolbox", closeError := Option.none },
          wrappersConstructed := 1 } =
      ({ toolboxClient := Option.some { url := "http://toolbox", closeError := Option.none },
         wrappersConstructed := 2 },
       .ok { wrapperId := 1, tool_name := "get_unused_indexes",
             defaults := [("min_size_mb", .int 1)] }) ∧
    (0 : Nat) ≠ 1 := by
  exact ⟨rfl, rfl, by decide⟩

/-- C4 (amended): the Loader's per-process cache holds only the shared client
handle, not adapters — `load_single_tool` reuses (or lazily creates) the one
client on every call but constructs a fresh `ToolWrapper` instance each time,
so two loads of the same identifier never return the same adapter object. -/
theorem c4_loader_caches_client_not_adapters
    (loadTool : TbClient → String → Option String) (url name : String)
    (st : LoaderState) :
    ((load_single_tool loadTool url name st).1.toolboxClient =
        Option.some (st.toolboxClient.getD { url := url, closeError := Option.none })) ∧
    ((load_single_tool loadTool url name
        (load_single_tool loadTool url name st).1).1.toolboxClient =
      (load_single_tool loadTool url name st).1.toolboxClient) ∧
    (∀ w1 w2,
      (load_single_tool loadTool url name st).2 = .ok w1 →
      (load_single_tool loadTool url name
        (load_single_tool loadTool url name st).1).2 = .ok w2 →
      w1.wrapperId ≠ w2.wrapperId) := by
  cases h : loadTool (st.toolboxClient.getD { url := url, closeError := Option.none }) name with
  | none => simp [load_single_tool, h, mkToolWrapper]
  | some raw =>
    refine ⟨by simp [load_single_tool, h, mkToolWrapper],
      by simp [load_single_tool, h, mkToolWrapper], ?_⟩
    intro w1 w2 h1 h2
    simp [load_single_tool, h, mkToolWrapper] at h1 h2
    subst h1
    subst h2
    simp

/-- C4 witness: the amended theorem evaluated on a resolver that always
succeeds, starting from the uninitialized state. -/
theorem c4_loader_caches_client_not_adapters_witness :
    (load_single_tool loadAlwaysOk "http://toolbox" "get_unused_indexes"
        { toolboxClient := Option.none, wrappersConstructed := 0 }).1.toolboxClient =
      Option.some { url := "http://toolbox", closeError := Option.none } ∧
    ({ wrapperId := 0, tool_name := "get_unused_indexes",
       defaults := [("min_size_mb", .int 1)] } : Wrapper).wrapperId ≠
      ({ wrapperId := 1, tool_name := "get_unused_indexes",
         defaults := [("min_size_mb", .int 1)] } : Wrapper).wrapperId := by
  have h := c4_loader_caches_client_not_adapters loadAlwaysOk "http://toolbox"
    "get_unused_indexes" { toolboxClient := Option.none, wrappersConstructed := 0 }
  exact ⟨h.1, h.2.2 _ _ rfl rfl⟩

/-- C5 counterexample: `execute_performance_analysis` with analysis type
"comprehensive" and a missing `limit` DOES attempt a sub-tool call
(`list_active_queries`) before returning the missing-parameter envelope, so
the failure is not returned before any sub-call. -/
theorem c5_performance_calls_before_check :
    execute_performance_analysis exStatusSuccess "comprehensive"
        Option.none Option.none Option.none =
      ([("list_active_queries", [])], missingLimitEnvelope) ∧
    ([("list_active_queries", ([] : Params))] : List (String × Params)) ≠ [] := by
  exact ⟨rfl, by simp⟩

/-- C5 (amended): the maintenance and schema composite analyses return their
descriptive missing-`schema_name` envelope before any sub-tool call, but the
performance composite returns its missing-`limit` envelope only after the
`list_active_queries` sub-call (and before the three historical-query
sub-calls). -/
theorem c5_missing_param_short_circuit_amended :
    (∀ (ex : String → Params → PyObj) (limit : Option Int) (analysisType : String),
      analysisType = "comprehensive" ∨ analysisType = "stats" →
      execute_maintenance_analysis ex analysisType Option.none limit =
        ([], missingSchemaStatsEnvelope)) ∧
    (∀ (ex : String → Params → PyObj) (limit minSizeMb : Option Int) (analysisType : String),
      analysisType = "comprehensive" ∨ analysisType = "tables" →
      execute_schema_analysis ex analysisType Option.none limit minSizeMb =
        ([], missingSchemaTablesEnvelope)) ∧
    (∀ (ex : String → Params → PyObj) (minDuration : Option String)
      (limitActive : Option Int) (analysisType : String),
      analysisType = "comprehensive" ∨ analysisType = "queries" →
      execute_performance_analysis ex analysisType Option.none minDuration limitActive =
        ([("list_active_queries", activeQueryParams minDuration limitActive)],
          missingLimitEnvelope)) := by
  refine ⟨fun ex limit analysisType h => ?_, fun ex limit minSizeMb analysisType h => ?_,
    fun ex minDuration limitActive analysisType h => ?_⟩
  · simp [execute_maintenance_analysis, h]
  · simp [execute_schema_analysis, h]
  · simp [execute_performance_analysis, h]

/-- C5 witness: the amended theorem evaluated at the "stats", "tables" and
"queries" analysis types with all optional arguments absent. -/
theorem c5_missing_param_short_circuit_amended_witness :
    execute_maintenance_analysis exStatusSuccess "stats" Option.none Option.none =
      ([], missingSchemaStatsEnvelope) ∧
    execute_schema_analysis exStatusSuccess "tables" Option.none Option.none Option.none =
      ([], missingSchemaTablesEnvelope) ∧
    execute_performance_analysis exStatusSuccess "queries"
        Option.none Option.none Option.none =
      ([("list_active_queries", [])], missingLimitEnvelope) := by
  have h := c5_missing_param_short_circuit_amended
  exact ⟨h.1 exStatusSuccess Option.none "stats" (Or.inr rfl),
    h.2.1 exStatusSuccess Option.none Option.none "tables" (Or.inr rfl),
    (h.2.2 exStatusSuccess Option.none Option.none "queries" (Or.inr rfl)).trans rfl⟩

/-- C6 counterexample: for the registered tool `get_unused_indexes` with all
(zero) required parameters supplied but an unrecognized parameter `foo`
present, `validate_tool_parameters` returns `valid = false` (with a warning
message), not `valid = true`. -/
theorem c6_unknown_param_gives_valid_false :
    validate_tool_parameters "get_unused_indexes" [("foo", .int 1)] =
      .dict [("valid", .bool false),
             ("warning", .str "Unknown parameters will be ignored: [\x27foo\x27]"),
             ("valid_params", .list [.str "min_size_mb"])] := by
  rfl

/-- C6 (amended): for a registered tool, `validate_tool_parameters` returns
`valid = false` with the list of missing required parameter names whenever a
required parameter is absent or null; when all required parameters are
supplied but unrecognized names are present it still returns `valid = false`,
but under a "warning" key (not "error") saying the unknown parameters will be
ignored; otherwise it returns `valid = true`. -/
theorem c6_validate_amended (toolName : String) (info : ToolInfo) (kwargs : Params)
    (h : TOOLS_REGISTRY.lookup toolName = Option.some info) :
    (missingRequired info kwargs ≠ [] →
      validate_tool_parameters toolName kwargs =
        .dict [("valid", .bool false),
               ("error", .str ("Missing required parameters: " ++
                 pyStrListRepr (missingRequired info kwargs))),
               ("required_params", .list (info.required_params.map .str)),
               ("provided_params", .list (kwargs.map (fun p => PyObj.str p.1)))]) ∧
    (missingRequired info kwargs = [] → unknownParams info kwargs ≠ [] →
      validate_tool_parameters toolName kwargs =
        .dict [("valid", .bool false),
               ("warning", .str ("Unknown parameters will be ignored: " ++
                 pyStrListRepr (unknownParams info kwargs))),
               ("valid_params", .list (info.parameters.map .str))]) ∧
    (missingRequired info kwargs = [] → unknownParams info kwargs = [] →
      validate_tool_parameters toolName kwargs =
        .dict [("valid", .bool true), ("message", .str "All parameters are valid")]) := by
  refine ⟨fun hm => ?_, fun hm hu => ?_, fun hm hu => ?_⟩
  · simp [validate_tool_parameters, h, hm]
  · simp [validate_tool_parameters, h, hm, hu]
  · simp [validate_tool_parameters, h, hm, hu]

/-- C6 witness: the amended theorem evaluated on the registered tool
`get_user_role_memberships` with its required `username` supplied as null. -/
theorem c6_validate_amended_witness :
    validate_tool_parameters "get_user_role_memberships" [("username", PyObj.none)] =
      .dict [("valid", .bool false),
             ("error", .str "Missing required parameters: [\x27username\x27]"),
             ("required_params", .list [.str "username"]),
             ("provided_params", .list [.str "username"])] := by
  have h := (c6_validate_amended "get_user_role_memberships"
    { category := "security",
      description := "Get role memberships for a specific user",
      parameters := ["username"], required_params := ["username"],
      optional_params := [] } [("username", PyObj.none)] rfl).1 (by decide)
  exact h.trans rfl

/-- C7: `load_tools_persistent` tolerates partial failure — for a known
bundle it returns exactly the successfully resolved identifiers, wrapped, in
bundle-definition order minus the skipped entries (never raising; per-tool
failures are logged and skipped), returns `[]` exactly when zero identifiers
resolve, and an unrecognized bundle name falls back to the
`postgres-dba-complete` bundle. -/
theorem c7_bundle_tolerates_partial_failure (loadTool : String → Option String)
    (tsName : String) (names : List String)
    (h : toolsets.lookup tsName = Option.some names) :
    (names.filterMap loadTool = [] → load_tools_persistent loadTool tsName = []) ∧
    (names.filterMap loadTool ≠ [] →
      load_tools_persistent loadTool tsName = (names.filterMap loadTool).map wrapTool ∧
      load_tools_persistent loadTool tsName ≠ []) ∧
    (∀ other, other ∉ toolsets.map Prod.fst →
      load_tools_persistent loadTool other =
        load_tools_persistent loadTool "postgres-dba-complete") := by
  refine ⟨fun he => ?_, fun hne => ⟨?_, ?_⟩, fun other ho => ?_⟩
  · simp [load_tools_persistent, h, he]
  · simp [load_tools_persistent, h, hne]
  · simp [load_tools_persistent, h, hne]
  · rw [load_tools_persistent, lookup_eq_none_of_not_mem _ _ ho]
    rfl

/-- C7 witness: a resolver broken on exactly one of the four identifiers of
the `postgres-dba-schema` bundle yields exactly the other three adapters in
order, and an unknown bundle name behaves as `postgres-dba-complete`. -/
theorem c7_bundle_tolerates_partial_failure_witness :
    load_tools_persistent loadSkipInvalid "postgres-dba-schema" =
      [wrapTool "list_database_tables", wrapTool "get_unused_indexes",
       wrapTool "get_table_maintenance_stats"] ∧
    load_tools_persistent loadSkipInvalid "no-such-bundle" =
      load_tools_persistent loadSkipInvalid "postgres-dba-complete" := by
  have h := c7_bundle_tolerates_partial_failure loadSkipInvalid "postgres-dba-schema"
    ["list_database_tables", "find_invalid_indexes", "get_unused_indexes",
     "get_table_maintenance_stats"] rfl
  refine ⟨((h.2.1 (by decide)).1).trans rfl, h.2.2 "no-such-bundle" (by decide)⟩

/-- C8: default merging at execution — `execute_tool "get_unused_indexes"`
with no arguments reaches the remote callable with the stored default
`min_size_mb = 1`, and with `min_size_mb = 50` the caller-supplied value
overrides the default. -/
theorem c8_defaults_merge_and_override :
    execute_tool "get_unused_indexes" [] =
      .viaAdapter (.invoke [("min_size_mb", .int 1)]) ∧
    execute_tool "get_unused_indexes" [("min_size_mb", .int 50)] =
      .viaAdapter (.invoke [("min_size_mb", .int 50)]) := by
  exact ⟨rfl, rfl⟩

/-- C9: teardown is idempotent and never raises — after any
`cleanup_toolbox_client` the handle is uninitialized, a second cleanup is a
log-free no-op, a close failure is logged (returned as a log message, never
an exception), and a subsequent `get_toolbox_client` lazily recreates the
connection. -/
theorem c9_cleanup_idempotent_never_raises (st : Option TbClient) :
    (cleanup_toolbox_client st).1 = Option.none ∧
    cleanup_toolbox_client (cleanup_toolbox_client st).1 =
      (Option.none, Option.none) ∧
    (∀ (mk : String → TbClient) (url : String),
      (get_toolbox_client mk url (cleanup_toolbox_client st).1).1 =
        Option.some (mk url)) ∧
    (∀ (url e : String),
      cleanup_toolbox_client (Option.some { url := url, closeError := Option.some e }) =
        (Option.none, Option.some ("Error closing toolbox client: " ++ e))) ∧
    (∀ (url : String),
      cleanup_toolbox_client (Option.some { url := url, closeError := Option.none }) =
        (Option.none, Option.none)) := by
  cases st <;>
    exact ⟨rfl, rfl, fun mk url => rfl, fun url e => rfl, fun url => rfl⟩

/-- C9 witness: the theorem evaluated at a connected state whose close fails
and at the uninitialized state. -/
theorem c9_cleanup_idempotent_never_raises_witness :
    (cleanup_toolbox_client
      (Option.some { url := "http://toolbox", closeError := Option.some "boom" })).1 =
      Option.none ∧
    cleanup_toolbox_client (Option.none : Option TbClient) =
      (Option.none, Option.none) := by
  have h := c9_cleanup_idempotent_never_raises
    (Option.some { url := "http://toolbox", closeError := Option.some "boom" })
  have h2 := c9_cleanup_idempotent_never_raises (Option.none : Option TbClient)
  have h3 := h2.2.1
  rw [h2.1] at h3
  exact ⟨h.1, h3⟩

/-- C10: in `ToolWrapper.__call__`, the caller-supplied arguments are merged
over the defaults before the None-filter, so explicitly passing None for
`min_size_mb` on `get_unused_indexes` suppresses the stored default 1
entirely — the remote callable is invoked with no arguments at all. -/
theorem c10_explicit_none_suppresses_default :
    toolWrapperAction "get_unused_indexes" [("min_size_mb", PyObj.none)] =
      .invokeNoArgs := by
  rfl

end PgAgent
